import Mathlib

/-!
Verification of the lidar_server gateway (Rust) against its natural-language
specification.  The definitions below are a shallow embedding of the relevant
source code:

* `src/udp/listener.rs`   — per-key UDP frame reassembly (`UdpListener::start`)
* `src/lidar/kanavi_mobility/udp_handler.rs` — binary frame decoder
  (`KanaviUDPHandler::parse`, `parse_cf`, `parse_dd`)
* `src/lidar/kanavi_mobility/types.rs` — record types and coordinate decoding
* `src/lidar/kanavi_mobility/ws_handler.rs` — session command handling
  (`KanaviMobilityWsHandler::parse`, `parse_get`, `parse_set`)
* `src/ws/server.rs` — session registry, per-message socket loop
  (`WsServer::handle_socket`) and identity-filtered broadcast
  (`AppState::broadcast_message`)

Bytes are modelled as `Nat` (wire bytes are always < 256; theorems add that
hypothesis only where it matters).  Rust `Vec<u8>` becomes `List Nat`.
A Rust panic (out-of-bounds index / slice) is modelled by `Option`: `none`
means the code panics on that input, `some` is the value actually produced.
Rust `Result` becomes `Except`.
-/

/-! ## Frame reassembler (src/udp/listener.rs, UdpListener::start, lines 116-189)

Per `LiDARKey` the listener appends each datagram to `raw_data` and then runs
the completeness check.  `processBuffer` is that check: it returns the buffer
left for the key together with the frame handed to the decoder, if any.
-/

/-- The 16-bit big-endian length field at byte offsets 5 and 6
(`(raw_data[5] as u16) << 8 | raw_data[6] as u16`). -/
def readLen (buf : List Nat) : Nat :=
  buf.getD 5 0 * 256 + buf.getD 6 0

/-- Source `total_len = data_len as usize + 7 + 1` (listener.rs line 149). -/
def totalLen (buf : List Nat) : Nat :=
  readLen buf + 8

/-- The reassembly decision taken after a datagram has been appended to a
key's buffer (listener.rs lines 134-183).  Result: (buffer kept for the key,
frame dispatched to the codec, if any). -/
def processBuffer (buf : List Nat) : List Nat × Option (List Nat) :=
  match buf.head? with
  | none => (buf, none)                    -- "empty data": continue
  | some b =>
    if b = 0xFA then
      if buf.length < 7 then (buf, none)   -- "not enough minimum data"
      else if buf.length < totalLen buf then (buf, none)  -- keep accumulating
      else if buf.length > totalLen buf then ([], none)   -- "too much data": clear
      else ([], some buf)                  -- complete: dispatch, then clear
    else ([], none)                        -- wrong sync byte: clear

/-- One reassembler step for a key: append the datagram, then run the check. -/
def reassembleStep (buf datagram : List Nat) : List Nat × Option (List Nat) :=
  processBuffer (buf ++ datagram)

/-- CLAIM C1: for a buffer whose first byte is 0xFA, the frame is handed to
the decoder iff the accumulated length equals the declared length + 7 + 1;
shorter buffers keep accumulating unchanged, and a dispatch always leaves the
buffer empty. -/
theorem reassembler_complete_iff_total_length (buf : List Nat)
    (h0 : buf.head? = some 0xFA) :
    ((processBuffer buf).2 = some buf ↔ buf.length = totalLen buf) ∧
    (buf.length < totalLen buf → processBuffer buf = (buf, none)) ∧
    ((processBuffer buf).2.isSome → (processBuffer buf).1 = []) := by
  have h7 : (8 : Nat) ≤ totalLen buf := by
    unfold totalLen; omega
  refine ⟨?_, ?_, ?_⟩
  · constructor
    · intro h
      by_contra hne
      simp only [processBuffer, h0] at h
      rcases Nat.lt_or_ge buf.length 7 with hlt | hge
      · simp [hlt] at h
      · have hsplit : buf.length < totalLen buf ∨ buf.length > totalLen buf := by omega
        rcases hsplit with hc | hc
        · simp [Nat.not_lt.mpr hge, hc] at h
        · simp [Nat.not_lt.mpr hge, Nat.not_lt.mpr (Nat.le_of_lt hc), hc] at h
    · intro h
      simp only [processBuffer, h0]
      have hge : ¬ buf.length < 7 := by omega
      have h1 : ¬ buf.length < totalLen buf := by omega
      have h2 : ¬ buf.length > totalLen buf := by omega
      simp [hge, h1, h2]
  · intro hlt
    simp only [processBuffer, h0]
    rcases Nat.lt_or_ge buf.length 7 with h7' | h7'
    · simp [h7']
    · simp [Nat.not_lt.mpr h7', hlt]
  · intro hs
    simp only [processBuffer, h0] at hs ⊢
    rcases Nat.lt_or_ge buf.length 7 with h7' | h7'
    · simp [h7'] at hs
    · rcases Nat.lt_or_ge buf.length (totalLen buf) with hc | hc
      · simp [Nat.not_lt.mpr h7', hc] at hs
      · rcases Nat.lt_or_ge (totalLen buf) buf.length with hc' | hc'
        · simp [Nat.not_lt.mpr h7', Nat.not_lt.mpr hc, hc']
        · simp [Nat.not_lt.mpr h7', Nat.not_lt.mpr hc, Nat.not_lt.mpr hc']

/-- Witness for C1: the 9-byte MotorSpeed frame (declared length 1) is
dispatched exactly at 9 accumulated bytes and the buffer is cleared. -/
theorem reassembler_complete_iff_total_length_witness :
    ([0xFA, 0, 1, 0xCF, 0x63, 0, 1, 5, 0x50] : List Nat).head? = some 0xFA ∧
    ((processBuffer [0xFA, 0, 1, 0xCF, 0x63, 0, 1, 5, 0x50]).2 =
        some [0xFA, 0, 1, 0xCF, 0x63, 0, 1, 5, 0x50] ↔
      ([0xFA, 0, 1, 0xCF, 0x63, 0, 1, 5, 0x50] : List Nat).length =
        totalLen [0xFA, 0, 1, 0xCF, 0x63, 0, 1, 5, 0x50]) := by
  refine ⟨by decide, ?_⟩
  exact (reassembler_complete_iff_total_length
    [0xFA, 0, 1, 0xCF, 0x63, 0, 1, 5, 0x50] (by decide)).1

/-- CLAIM C7: a buffer with a wrong sync byte, or one longer than its declared
total length, is discarded whole with no dispatch; afterwards a valid complete
frame arriving at the now-empty buffer is dispatched normally. -/
theorem reassembler_discard_and_recover :
    (∀ buf b, buf.head? = some b → b ≠ 0xFA → processBuffer buf = ([], none)) ∧
    (∀ buf, buf.head? = some 0xFA → buf.length > totalLen buf →
      processBuffer buf = ([], none)) ∧
    (∀ f, f.head? = some 0xFA → f.length = totalLen f →
      reassembleStep [] f = ([], some f)) := by
  refine ⟨?_, ?_, ?_⟩
  · intro buf b hb hne
    simp [processBuffer, hb, hne]
  · intro buf hb hover
    have h7 : ¬ buf.length < 7 := by
      have : (8 : Nat) ≤ totalLen buf := by unfold totalLen; omega
      omega
    simp [processBuffer, hb, h7, Nat.not_lt.mpr (Nat.le_of_lt hover), hover]
  · intro f hf hlen
    have h8 : (8 : Nat) ≤ totalLen f := by unfold totalLen; omega
    have h7 : ¬ f.length < 7 := by omega
    have h1 : ¬ f.length < totalLen f := by omega
    have h2 : ¬ f.length > totalLen f := by omega
    simp [reassembleStep, processBuffer, hf, h7, h1, h2]

/-- Witness for C7: a corrupt buffer starting 0xFB is discarded, and the valid
MotorSpeed frame then completes from the empty buffer. -/
theorem reassembler_discard_and_recover_witness :
    processBuffer [0xFB, 1, 2, 3] = ([], none) ∧
    reassembleStep [] [0xFA, 0, 1, 0xCF, 0x63, 0, 1, 5, 0x50] =
      ([], some [0xFA, 0, 1, 0xCF, 0x63, 0, 1, 5, 0x50]) := by
  constructor
  · exact reassembler_discard_and_recover.1 [0xFB, 1, 2, 3] 0xFB (by decide) (by decide)
  · exact reassembler_discard_and_recover.2.2
      [0xFA, 0, 1, 0xCF, 0x63, 0, 1, 5, 0x50] (by decide) (by decide)

/-! ## Codec data model (src/lidar/kanavi_mobility/types.rs, src/lidar/types.rs)

Coordinates: the claims under verification never mention the numeric value of
a projected point coordinate (the source computes `x`, `y`, `z` as fixed `f32`
trigonometric functions).  A decoded scan point is therefore represented by
the exact rational data the source feeds into that fixed projection — the
vertical angle `fov_list[ch]`, the horizontal angle
`h_angle_idx * h_fov_resol + (180 - h_fov)/2` and the decoded distance — so
point identity, counts and data flow are preserved.  User-area points involve
no trigonometry and are decoded exactly (the `0.01` fractional factor is the
rational 1/100). -/

/-- Source `LiDARInfo` (types.rs lines 7-13): `ip` is the string form of the source
IPv4 address, as produced by `Ipv4Addr::to_string`. -/
structure LiDARInfo where
  ip : List Char
  port : Nat
  product_line : Nat
  lidar_id : Nat
deriving DecidableEq

/-- A decoded point-cloud sample, by the source data of its projection. -/
structure ScanPoint where
  v_angle : ℚ
  h_angle : ℚ
  dist : ℚ
deriving DecidableEq

/-- Source `Point` as used for user areas (z is always 0 there). -/
structure Point where
  x : ℚ
  y : ℚ
  z : ℚ
deriving DecidableEq

structure UserArea where
  point_count : Nat
  points : List Point
deriving DecidableEq

structure BasicConfig where
  output_channel : Nat
  self_check_active_state : Nat
  pulse_active_state : Nat
  pulse_output_mode : Nat
  pulse_pin_mode : Nat
  pulse_pin_channel : Nat
  start_angle : Nat
  finish_angle : Nat
  min_distance : Nat
  max_distance : Nat
  object_size : Nat
  area_count : Nat
  areas : List UserArea
deriving DecidableEq

structure VersionInfo where
  firmware_version : List Nat
  hardware_version : List Nat
  end_target : Nat
deriving DecidableEq

structure NetworkSourceInfo where
  ip_address : List Nat
  mac_address : List Nat
  subnet_mask : List Nat
  gateway : List Nat
  port : Nat
deriving DecidableEq

structure TeachingArea where
  is_set : Nat
  points : List (List ScanPoint)
deriving DecidableEq

structure NetworkDestinationIP where
  ip_address : List Nat
deriving DecidableEq

structure MotorSpeed where
  speed : Nat
deriving DecidableEq

structure WarningArea where
  danger_area : List Nat
  warning_area : List Nat
  caution_area : List Nat
deriving DecidableEq

structure FogFilter where
  filter_value : Nat
deriving DecidableEq

structure RadiusFilter where
  filter_value : Nat
deriving DecidableEq

structure RadiusFilterMaxDistance where
  max_distance : Nat
deriving DecidableEq

structure WindowContaminationDetectionMode where
  mode : Nat
deriving DecidableEq

structure TeachingMode where
  range : Nat
  margin : Nat
deriving DecidableEq

structure RadiusFilterMinDistance where
  min_distance : Nat
deriving DecidableEq

structure PointCloud where
  points : List ScanPoint
deriving DecidableEq

/-- Source `PointCloudData` (types.rs lines 495-510). -/
structure PointCloudData where
  point_cloud : PointCloud
  channel : Nat
  detection_value : Nat
deriving DecidableEq

/-- The configuration record union (one variant per decoded CF frame). -/
inductive KMConfigData where
  | basicConfig (c : BasicConfig)
  | versionInfo (v : VersionInfo)
  | networkSourceInfo (n : NetworkSourceInfo)
  | teachingArea (t : TeachingArea)
  | networkDestinationIP (n : NetworkDestinationIP)
  | motorSpeed (m : MotorSpeed)
  | warningArea (w : WarningArea)
  | fogFilter (f : FogFilter)
  | radiusFilter (r : RadiusFilter)
  | radiusFilterMaxDistance (r : RadiusFilterMaxDistance)
  | windowContaminationDetectionMode (w : WindowContaminationDetectionMode)
  | teachingMode (t : TeachingMode)
  | radiusFilterMinDistance (r : RadiusFilterMinDistance)
  | ack (code : Nat)
deriving DecidableEq

/-- The `lidar_info` slot of a request/response JSON value: `null`, a value
that deserializes to `LiDARInfo`, or any other JSON shape. -/
inductive InfoJson where
  | null
  | valid (i : LiDARInfo)
  | invalid
deriving DecidableEq

/-- Payload attached to a `ResponseMessage`. -/
inductive RespData where
  | config (c : KMConfigData)
  | cloud (p : PointCloudData)
  | infoList (l : List LiDARInfo)
deriving DecidableEq

/-- Source `ResponseMessage` (lidar/types.rs lines 150-175); `new()` gives empty
status and message and `data = None`. -/
structure Response where
  lidar_info : InfoJson
  status : String
  message : String
  data : Option RespData
deriving DecidableEq

/-! ## Point-cloud geometry (udp_handler.rs parse_dd, lines 269-318) -/

/-- Vertical field-of-view list by product line (parse_dd lines 278-291). -/
def fovList (pl : Nat) : List ℚ :=
  if pl = 2 ∨ pl = 3 then [0, 3]
  else if pl = 7 then [0]
  else [-107/100, 0, 107/100, 214/100]

/-- Horizontal field of view by product line. -/
def hFov (pl : Nat) : ℚ :=
  if pl = 2 ∨ pl = 3 then 120
  else if pl = 7 then 270
  else 100

/-- Source `h_fov_resol = 0.25` (exactly representable, hence a plain rational). -/
def hFovResol : ℚ := 1 / 4

/-- Source `(h_fov / h_fov_resol) as usize`: the horizontal sample count.  All three
quotients (400, 480, 1080) are exact in `f32`, so the float division and
truncating cast agree with the rational floor. -/
def hSamples (pl : Nat) : Nat :=
  (Int.floor (hFov pl / hFovResol)).toNat

/-- One decoded sample: vertical angle, horizontal angle
`h_angle_idx * h_fov_resol + (180 - h_fov)/2`, and distance. -/
def mkScanPoint (v hf : ℚ) (j : Nat) (dist : ℚ) : ScanPoint :=
  ⟨v, (j : ℚ) * hFovResol + (180 - hf) / 2, dist⟩

/-- Distance extraction of parse_dd (lines 293-296): indices
`i in (0..len-1).step_by(2)`, `distance[k] = data[2k] + data[2k+1] * 0.01`;
an unpaired final byte is ignored. -/
def ddDistances : List Nat → List ℚ
  | b0 :: b1 :: rest => ((b0 : ℚ) + (b1 : ℚ) * (1 / 100)) :: ddDistances rest
  | _ => []

/-- Source `KanaviUDPHandler::parse_dd` (lines 269-318).  `none` models a panic:
`data[data.len()-1]` on an empty payload, `fov_list[ch as usize]` with an
out-of-range channel, or `distance[h_angle_idx]` with too few samples. -/
def parseDD (pl param : Nat) (payload : List Nat) : Option PointCloudData :=
  match payload.getLast? with
  | none => none
  | some lastByte =>
    let ch := param % 16
    match (fovList pl).get? ch with
    | none => none
    | some vAngle =>
      let dists := ddDistances payload
      let n := hSamples pl
      if n ≤ dists.length then
        some ⟨⟨(List.range n).map fun j => mkScanPoint vAngle (hFov pl) j (dists.getD j 0)⟩,
              ch, lastByte⟩
      else none

/-! ## Configuration decode (udp_handler.rs parse_cf, lines 76-267) -/

/-- Source `bytes[k] as i8` (two's complement).  The source's sign-correction branch
(complement, add one, negate) computes the same value for every byte,
including 0x80, which wraps to -128 under release-mode arithmetic. -/
def signedByte (b : Nat) : ℤ :=
  if b < 128 then (b : ℤ) else (b : ℤ) - 256

/-- Source `UserArea::parse_coordinate` (types.rs lines 64-76). -/
def coordVal (b0 b1 : Nat) : ℚ :=
  (signedByte b0 : ℚ) + (signedByte b1 : ℚ) * (1 / 100)

/-- Source `UserArea::parse_points` (types.rs lines 54-62): 4-byte groups, 2 bytes x
then 2 bytes y; a trailing group of fewer than 4 bytes makes the 2-byte
sub-slices run past the end — a panic (`none`). -/
def parseAreaPoints : List Nat → Option (List Point)
  | [] => some []
  | b0 :: b1 :: b2 :: b3 :: rest =>
      (parseAreaPoints rest).map fun ps => ⟨coordVal b0 b1, coordVal b2 b3, 0⟩ :: ps
  | _ => none

/-- Source `UserArea::from_bytes` (types.rs lines 49-52). -/
def userAreaFromBytes (pc : Nat) (bytes : List Nat) : Option UserArea :=
  (parseAreaPoints bytes).map fun ps => ⟨pc, ps⟩

/-- The `area_count` loop of parse_cf 0x11 (udp_handler.rs lines 112-123).
`point_count * 4` is u8 arithmetic, hence the `% 256` (release-mode wrap);
a slice end past the payload is a panic (`none`). -/
def parseAreas (data : List Nat) : Nat → Nat → Option (List UserArea)
  | _, 0 => some []
  | idx, Nat.succ k =>
    match data.get? idx with
    | none => none
    | some pc =>
      let byteLen := pc * 4 % 256
      if idx + 1 + byteLen ≤ data.length then
        match userAreaFromBytes pc ((data.drop (idx + 1)).take byteLen) with
        | none => none
        | some area =>
          match parseAreas data (idx + 1 + byteLen) k with
          | none => none
          | some rest => some (area :: rest)
      else none

/-- parse_cf parameter 0x11 (udp_handler.rs lines 86-141): 14 fixed bytes,
then `area_count` variable-length area records.  Every read is an unchecked
index in the source; the sequence of reads at offsets 0..13 panics exactly
when the payload is shorter than 14 bytes, hence the single guard. -/
def parseBasicConfig (data : List Nat) : Option BasicConfig :=
  if 14 ≤ data.length then
    match parseAreas data 14 (data.getD 13 0) with
    | none => none
    | some areas =>
      some ⟨data.getD 0 0, data.getD 1 0, data.getD 2 0, data.getD 3 0,
            data.getD 4 0, data.getD 5 0,
            data.getD 6 0 * 256 + data.getD 7 0,
            data.getD 8 0 * 256 + data.getD 9 0,
            data.getD 10 0, data.getD 11 0, data.getD 12 0,
            data.getD 13 0, areas⟩
  else none

/-- Source `TeachingArea::parse_points` distance loop (types.rs lines 263-266):
indices `i in (0..len).step_by(2)` — unlike parse_dd the bound is `len`, so an
odd-length byte string reads `points[i+1]` past the end: a panic. -/
def taDistances : List Nat → Option (List ℚ)
  | [] => some []
  | b0 :: b1 :: rest =>
      (taDistances rest).map fun l => ((b0 : ℚ) + (b1 : ℚ) * (1 / 100)) :: l
  | _ => none

/-- Source `TeachingArea::parse_points` (types.rs lines 246-296): all channels of the
product line concatenated; `distance[pos(v)*samples + j]` past the end is a
panic. -/
def teachingPoints (pl : Nat) (bytes : List Nat) : Option (List (List ScanPoint)) := do
  let dists ← taDistances bytes
  let fl := fovList pl
  let n := hSamples pl
  if fl.length * n ≤ dists.length then
    pure ((List.range fl.length).map fun k =>
      (List.range n).map fun j => mkScanPoint (fl.getD k 0) (hFov pl) j (dists.getD (k * n + j) 0))
  else none

/-- Source `TeachingArea::parse` (types.rs lines 236-244). -/
def teachingAreaParse (pl is_set : Nat) (raw : List Nat) : Option TeachingArea :=
  if is_set = 1 then (teachingPoints pl raw).map fun ps => ⟨is_set, ps⟩
  else some ⟨is_set, []⟩

/-- The 24 parameter bytes acknowledged with `Ack` (udp_handler.rs lines
255-256). -/
def ackParams : List Nat :=
  [0x01, 0x21, 0x31, 0x41, 0x51, 0x61, 0x81, 0x91, 0xA1, 0xB1, 0xC1, 0xE1,
   0x03, 0x13, 0x23, 0x33, 0x53, 0x73, 0x9D, 0xB3, 0xD3, 0xF3, 0x25, 0x45]

/-- Source `KanaviUDPHandler::parse_cf` (udp_handler.rs lines 76-267).  `none` is a
panic (out-of-bounds index), `some (.error _)` the explicit decode error for
an unsupported parameter, `some (.ok _)` a decoded record.  The source's
`match param` is rendered as a decision chain over the same byte values; a
branch reading fixed offsets 0..k-1 panics exactly when the payload is
shorter than k bytes, hence each branch's single length guard. -/
def parseCF (pl param : Nat) (data : List Nat) : Option (Except String KMConfigData) :=
  if param = 0x11 then
    (parseBasicConfig data).map fun c => Except.ok (.basicConfig c)
  else if param = 0x71 then
    if 7 ≤ data.length then
      some (Except.ok (.versionInfo
        ⟨[data.getD 0 0, data.getD 1 0, data.getD 2 0],
         [data.getD 3 0, data.getD 4 0, data.getD 5 0],
         data.getD 6 0⟩))
    else none
  else if param = 0xD1 then
    if 20 ≤ data.length then
      some (Except.ok (.networkSourceInfo
        ⟨[data.getD 0 0, data.getD 1 0, data.getD 2 0, data.getD 3 0],
         [data.getD 4 0, data.getD 5 0, data.getD 6 0, data.getD 7 0,
          data.getD 8 0, data.getD 9 0],
         [data.getD 10 0, data.getD 11 0, data.getD 12 0, data.getD 13 0],
         [data.getD 14 0, data.getD 15 0, data.getD 16 0, data.getD 17 0],
         data.getD 18 0 * 256 + data.getD 19 0⟩))
    else none
  else if param = 0xF1 then
    match data.get? 0 with
    | none => none
    | some flag =>
      match teachingAreaParse pl flag (data.drop 1) with
      | none => none
      | some t => some (Except.ok (.teachingArea t))
  else if param = 0x43 then
    if 4 ≤ data.length then
      some (Except.ok (.networkDestinationIP
        ⟨[data.getD 0 0, data.getD 1 0, data.getD 2 0, data.getD 3 0]⟩))
    else none
  else if param = 0x63 then
    (data.get? 0).map fun v => Except.ok (.motorSpeed ⟨v⟩)
  else if param = 0x83 then
    if 6 ≤ data.length then
      some (Except.ok (.warningArea
        ⟨[data.getD 0 0, data.getD 1 0], [data.getD 2 0, data.getD 3 0],
         [data.getD 4 0, data.getD 5 0]⟩))
    else none
  else if param = 0xA3 then
    (data.get? 0).map fun v => Except.ok (.fogFilter ⟨v⟩)
  else if param = 0xC3 then
    (data.get? 0).map fun v => Except.ok (.radiusFilter ⟨v⟩)
  else if param = 0xE3 then
    (data.get? 0).map fun v => Except.ok (.radiusFilterMaxDistance ⟨v⟩)
  else if param = 0x05 then
    (data.get? 0).map fun v => Except.ok (.windowContaminationDetectionMode ⟨v⟩)
  else if param = 0x15 then
    if 2 ≤ data.length then
      some (Except.ok (.teachingMode ⟨data.getD 0 0, data.getD 1 0⟩))
    else none
  else if param = 0x35 then
    (data.get? 0).map fun v => Except.ok (.radiusFilterMinDistance ⟨v⟩)
  else if param ∈ ackParams then
    (data.get? 0).map fun c => Except.ok (.ack c)
  else some (Except.error "not supported param")

/-- Source `KanaviUDPHandler::parse` (udp_handler.rs lines 11-72): header checks and
mode dispatch.  The payload slice is `data[7 .. 7+data_len]`; the trailing
checksum byte at offset `7 + data_len` is never read. -/
def parse (ip : List Char) (port : Nat) (data : List Nat) : Option (Except String Response) :=
  if data.length < 8 then some (Except.error "not enough data")
  else if data.getD 0 0 ≠ 0xFA then some (Except.error "invalid header")
  else
    let data_len := readLen data
    if data.length ≠ data_len + 8 then some (Except.error "not enough data")
    else
      let product_line := data.getD 1 0
      let lidar_id := data.getD 2 0
      let mode := data.getD 3 0
      let param := data.getD 4 0
      let payload := (data.drop 7).take data_len
      let info : LiDARInfo := ⟨ip, port, product_line, lidar_id⟩
      if mode = 0xCF then
        match parseCF product_line param payload with
        | none => none
        | some (Except.error e) => some (Except.error e)
        | some (Except.ok c) => some (Except.ok ⟨.valid info, "", "", some (.config c)⟩)
      else if mode = 0xF0 then some (Except.ok ⟨.valid info, "error", "NAK", none⟩)
      else if mode = 0xDD then
        match parseDD product_line param payload with
        | none => none
        | some pcd => some (Except.ok ⟨.valid info, "none", "", some (.cloud pcd)⟩)
      else some (Except.ok ⟨.valid info, "", "", none⟩)

/-! ## Session layer (src/lidar/kanavi_mobility/ws_handler.rs, src/ws/server.rs)

The session registry state relevant to the claims: `clients` (connected
session ids), `client_lidar_map` (session id → subscribed `LiDARInfo`) and
`lidar_infos` (the `KnownDeviceSet`, a `HashSet<LiDARInfo>` modelled as a
duplicate-free insertion-ordered list).  JSON deserialization of an inbound
text message into `RequestMessage` is taken as given: a message is modelled
already structured (the malformed-JSON path of `handle_socket` only logs and
sends nothing, and no claim depends on it).  The `data` member of
`RequestMessage` is read by none of the handler paths and is not modelled. -/

/-- Source `RequestMessage` (lidar/types.rs lines 124-130). -/
structure RequestMessage where
  lidar_info : InfoJson
  command : String
  type : String
deriving DecidableEq

/-- What the per-message loop of `WsServer::handle_socket` does with one
inbound request: the direct reply sent back to the requesting session (if
any), the encoded command handed to the session→UDP bridge channel (if any),
and whether the connection is closed. -/
structure SessionOutcome where
  reply : Option Response
  bridge : Option (List Nat)
  close : Bool
deriving DecidableEq

/-- The checksum loop of parse_get basic_config (ws_handler.rs lines
132-136): `checksum = raw[0]`, then xor of the remaining bytes. -/
def checksumXor : List Nat → Nat
  | [] => 0
  | h :: t => t.foldl (· ^^^ ·) h

/-- The outgoing GET-basic-config frame built by parse_get (ws_handler.rs
lines 121-136): header `[0xFA, product_line, lidar_id, 0xCF, 0x10,
len >> 8, len & 0xFF]`, payload `[0xED]`, then the checksum byte. -/
def mkBasicConfigGetFrame (info : LiDARInfo) : List Nat :=
  let data : List Nat := [0xED]
  let raw : List Nat :=
    [0xFA, info.product_line, info.lidar_id, 0xCF, 0x10,
     data.length / 256 % 256, data.length % 256] ++ data
  raw ++ [checksumXor raw]

/-- Source `KanaviMobilityWsHandler::parse_get` (ws_handler.rs lines 87-152).
`lidarInfosAtReply` is the content of the `lidar_infos` set at the moment the
reply is built — for `lidar_list` that is after the clear and the 1000 ms
sleep.  Result: the response and the raw command bytes (`ret.1`). -/
def parse_get (req : RequestMessage) (lidarInfosAtReply : List LiDARInfo) :
    Except String (Response × List Nat) :=
  if req.type = "lidar_list" then
    Except.ok (⟨.null, "success", "", some (.infoList lidarInfosAtReply)⟩, [])
  else if req.type = "basic_config" then
    match req.lidar_info with
    | .valid info => Except.ok (⟨.null, "none", "", none⟩, mkBasicConfigGetFrame info)
    | _ => Except.error "lidar_info is invalid"
  else Except.error "not supported request type"

/-- Source `KanaviMobilityWsHandler::parse_set` (ws_handler.rs lines 65-83): the
register_lidar arm only sets the reply status to success. -/
def parse_set (req : RequestMessage) : Except String (Response × List Nat) :=
  if req.type = "register_lidar" then
    Except.ok (⟨.null, "success", "", none⟩, [])
  else Except.error "not supported request type"

/-- Source `KanaviMobilityWsHandler::parse` (ws_handler.rs lines 26-61).  Note the
source's `if let Ok(_ret) = self.parse_get(...)` / `parse_set(...)`: a
handler error is dropped and `ret` keeps the default `ResponseMessage::new()`
(empty status, empty message).  The request's `lidar_info` is then echoed
into the reply. -/
def wsParse (req : RequestMessage) (lidarInfosAtReply : List LiDARInfo) :
    Except String (Response × List Nat) :=
  let ret0 : Response × List Nat := (⟨.null, "", "", none⟩, [])
  if req.command = "get" then
    let r := match parse_get req lidarInfosAtReply with
      | Except.ok x => x
      | Except.error _ => ret0
    Except.ok ({ r.1 with lidar_info := req.lidar_info }, r.2)
  else if req.command = "set" then
    let r := match parse_set req with
      | Except.ok x => x
      | Except.error _ => ret0
    Except.ok ({ r.1 with lidar_info := req.lidar_info }, r.2)
  else Except.error "not supported request command"

/-- One inbound text message through `WsServer::handle_socket` (server.rs
lines 220-285).  An `Err` from the handler is dropped by
`if let Ok(ret) = ws_handler.parse(...)`: nothing is sent.  On `Ok`, the
reply is sent unless the status is "none"; the raw bytes are bridged to UDP
when non-empty and the echoed `lidar_info` deserializes as `LiDARInfo`.
Only a Close websocket message breaks the loop, so `close` is false here. -/
def sessionStep (req : RequestMessage) (lidarInfosAtReply : List LiDARInfo) :
    SessionOutcome :=
  match wsParse req lidarInfosAtReply with
  | Except.error _ => ⟨none, none, false⟩
  | Except.ok (res, raw) =>
    let reply := if res.status ≠ "none" then some res else none
    let bridge := match res.lidar_info with
      | .valid _ => if raw.length > 0 then some raw else none
      | _ => none
    ⟨reply, bridge, false⟩

/-- Handling of a `set`/`register_lidar` request together with its effect on
`client_lidar_map`.  No statement in ws_handler.rs or server.rs writes to
`client_lidar_map` (its only accesses in the source are the two reads in
`AppState::broadcast_message`), so the map passes through unchanged whatever
the request carries. -/
def handleRegisterLidar (client_lidar_map : Nat → Option LiDARInfo) (sid : Nat)
    (req : RequestMessage) : (Nat → Option LiDARInfo) × SessionOutcome :=
  (client_lidar_map, sessionStep req [])

/-- Source `HashSet::insert` on the `lidar_infos` set (order-insensitive
deduplicated collection, modelled as append-if-absent). -/
def insertInfo (s : List LiDARInfo) (i : LiDARInfo) : List LiDARInfo :=
  if i ∈ s then s else s ++ [i]

/-- The `lidar_list` request path (ws_handler.rs lines 95-116): clear
`lidar_infos`, sleep 1000 ms, then reply from the set's current contents.
`pre` is the set content before the clear; `window` the device identities
inserted by the UDP→WS task (server.rs lines 128-133) during the sleep. -/
def lidarListHandle (pre window : List LiDARInfo) (req : RequestMessage) :
    List LiDARInfo × SessionOutcome :=
  let cleared : List LiDARInfo := []
  let atReply := window.foldl insertInfo cleared
  (atReply, sessionStep req atReply)

/-! ## Identity-filtered broadcast (server.rs AppState::broadcast_message,
lines 340-354)

The source compares `lidar_info_from_map.to_json().to_string()` with
`message["lidar_info"].to_string()`.  Both strings are `serde_json`
renderings of a `LiDARInfo`: compact, object keys in `BTreeMap` order
(`ip`, `lidar_id`, `port`, `product_line`), numbers in decimal, and the `ip`
string quoted.  `liDARInfoStr` reproduces that rendering for `ip` strings
containing no character that `serde_json` escapes (no quote, no backslash, no
control character) — the hypothesis `escapeFreeIp` below; every ip the
gateway itself produces (`Ipv4Addr::to_string`) satisfies it. -/

def lbrace : Char := Char.ofNat 123

def rbrace : Char := Char.ofNat 125

def quoteChar : Char := Char.ofNat 34

def backslashChar : Char := Char.ofNat 92

/-- Decimal digit character. -/
def digitChar (d : Nat) : Char :=
  if d = 0 then '0' else if d = 1 then '1' else if d = 2 then '2'
  else if d = 3 then '3' else if d = 4 then '4' else if d = 5 then '5'
  else if d = 6 then '6' else if d = 7 then '7' else if d = 8 then '8'
  else '9'

/-- Decimal rendering of a natural number, most significant digit first. -/
def natChars (n : Nat) : List Char :=
  if n = 0 then ['0'] else ((Nat.digits 10 n).map digitChar).reverse

/-- An ip string whose characters `serde_json` writes verbatim. -/
def escapeFreeIp (s : List Char) : Prop :=
  ∀ c ∈ s, c ≠ quoteChar ∧ c ≠ backslashChar ∧ 32 ≤ c.toNat

instance (s : List Char) : Decidable (escapeFreeIp s) := by
  unfold escapeFreeIp
  infer_instance

/-- The `serde_json` compact rendering of a `LiDARInfo` value, as compared on
both sides of the equality in `broadcast_message`. -/
def liDARInfoStr (i : LiDARInfo) : List Char :=
  lbrace :: ("\"ip\":\"".toList
    ++ (i.ip ++ (quoteChar :: (',' :: ("\"lidar_id\":".toList
    ++ (natChars i.lidar_id ++ (',' :: ("\"port\":".toList
    ++ (natChars i.port ++ (',' :: ("\"product_line\":".toList
    ++ (natChars i.product_line ++ [rbrace]))))))))))))

/-- Source `AppState::broadcast_message` (server.rs lines 340-354): the sessions a
message with serialized identity `msgLidarInfoStr` is sent to. -/
def broadcastRecipients (clients : List Nat) (client_lidar_map : Nat → Option LiDARInfo)
    (msgLidarInfoStr : List Char) : List Nat :=
  clients.filter fun sid =>
    match client_lidar_map sid with
    | some i => decide (liDARInfoStr i = msgLidarInfoStr)
    | none => false

/-! ## Theorems -/

/-- CLAIM C2 is false of the code (the spec's §9 design note demands
bounds-checked reads; the decoder indexes unchecked): three complete frames
whose decoding performs an out-of-bounds access (a panic, `none`) instead of
returning a record or a decode error — a mode 0xDD frame whose 2-byte payload
holds 1 distance sample where 400 are read, a mode 0xDD frame with channel 4
against the 4-entry FOV list, and a parameter 0x11 frame whose 2-byte payload
is read at fixed offsets 0..13. -/
theorem hSamples_eq (pl : Nat) :
    hSamples pl = if pl = 2 ∨ pl = 3 then 480 else if pl = 7 then 1080 else 400 := by
  unfold hSamples hFov hFovResol
  by_cases h23 : pl = 2 ∨ pl = 3
  · simp only [h23, if_true]
    norm_num
    rfl
  · by_cases h7 : pl = 7
    · simp only [h23, h7, if_false, if_true]
      norm_num
      rfl
    · simp only [h23, h7, if_false]
      norm_num
      rfl

theorem parse_unchecked_reads_panic :
    parse [] 0 [0xFA, 0, 1, 0xDD, 0x00, 0, 2, 1, 2, 0] = none ∧
    parse [] 0 [0xFA, 0, 1, 0xDD, 0x04, 0, 2, 1, 2, 0] = none ∧
    parse [] 0 [0xFA, 0, 1, 0xCF, 0x11, 0, 2, 1, 2, 0] = none := by
  refine ⟨?_, rfl, rfl⟩
  simp [parse, parseDD, readLen, ddDistances, fovList, hSamples_eq]

/-- CLAIM C3 is false of the code: handling `set`/`register_lidar` replies
with status success but records nothing — `client_lidar_map` is never written
anywhere in the source, so the session's entry stays `none`. -/
theorem register_lidar_not_recorded :
    (handleRegisterLidar (fun _ => none) 0
        ⟨.valid ⟨"192.168.0.1".toList, 5000, 0, 1⟩, "set", "register_lidar"⟩).1 0 = none ∧
    (handleRegisterLidar (fun _ => none) 0
        ⟨.valid ⟨"192.168.0.1".toList, 5000, 0, 1⟩, "set", "register_lidar"⟩).2.reply =
      some ⟨.valid ⟨"192.168.0.1".toList, 5000, 0, 1⟩, "success", "", none⟩ := by
  exact ⟨rfl, rfl⟩

theorem mem_insertInfo (s : List LiDARInfo) (j i : LiDARInfo) :
    i ∈ insertInfo s j ↔ i ∈ s ∨ i = j := by
  unfold insertInfo
  by_cases h : j ∈ s
  · simp only [h, if_true]
    constructor
    · exact Or.inl
    · rintro (hi | rfl)
      · exact hi
      · exact h
  · simp [h]

theorem mem_foldl_insertInfo (w : List LiDARInfo) :
    ∀ s i, i ∈ w.foldl insertInfo s ↔ i ∈ s ∨ i ∈ w := by
  induction w with
  | nil => simp
  | cons j t ih =>
    intro s i
    simp only [List.foldl_cons, ih, mem_insertInfo, List.mem_cons]
    tauto

/-- CLAIM C5: `get`/`lidar_list` clears the KnownDeviceSet, waits out the
debounce window, and replies success with exactly the post-clear contents:
identities seen only before the clear are absent, and with no decode during
the window the reply carries the empty list. -/
theorem lidar_list_fresh_snapshot (pre window : List LiDARInfo) (req : RequestMessage)
    (hcmd : req.command = "get") (hty : req.type = "lidar_list") :
    ((lidarListHandle pre window req).2).reply =
      some ⟨req.lidar_info, "success", "",
            some (.infoList (lidarListHandle pre window req).1)⟩ ∧
    (∀ i, i ∈ (lidarListHandle pre window req).1 ↔ i ∈ window) ∧
    (window = [] → (lidarListHandle pre window req).1 = []) := by
  refine ⟨?_, ?_, ?_⟩
  · simp only [lidarListHandle, sessionStep, wsParse, parse_get, hcmd, hty]
    simp
  · intro i
    simp only [lidarListHandle]
    simpa using mem_foldl_insertInfo window [] i
  · rintro rfl
    rfl

/-- Witness for C5: with two known identities before the request and no
identity observed during the window, the reply is success with the empty
list. -/
theorem lidar_list_fresh_snapshot_witness :
    ((lidarListHandle [⟨"10.0.0.1".toList, 1, 2, 3⟩, ⟨"10.0.0.2".toList, 4, 5, 6⟩] []
        ⟨.null, "get", "lidar_list"⟩).2).reply =
      some ⟨InfoJson.null, "success", "",
            some (.infoList (lidarListHandle
              [⟨"10.0.0.1".toList, 1, 2, 3⟩, ⟨"10.0.0.2".toList, 4, 5, 6⟩] []
              ⟨.null, "get", "lidar_list"⟩).1)⟩ ∧
    (lidarListHandle [⟨"10.0.0.1".toList, 1, 2, 3⟩, ⟨"10.0.0.2".toList, 4, 5, 6⟩] []
        ⟨.null, "get", "lidar_list"⟩).1 = [] := by
  constructor
  · exact (lidar_list_fresh_snapshot
      [⟨"10.0.0.1".toList, 1, 2, 3⟩, ⟨"10.0.0.2".toList, 4, 5, 6⟩] []
      ⟨.null, "get", "lidar_list"⟩ rfl rfl).1
  · exact (lidar_list_fresh_snapshot
      [⟨"10.0.0.1".toList, 1, 2, 3⟩, ⟨"10.0.0.2".toList, 4, 5, 6⟩] []
      ⟨.null, "get", "lidar_list"⟩ rfl rfl).2.2 rfl

/-- CLAIM C8 is false of the code at these inputs: a request whose command is
neither get nor set gets NO reply at all (`if let Ok` drops the handler
error), and a get with an unrecognized type gets a reply whose status is the
empty string, not "error". -/
theorem protocol_error_reply_counterexample :
    (sessionStep ⟨.null, "hello", "basic_config"⟩ []).reply = none ∧
    ((sessionStep ⟨.null, "get", "bogus"⟩ []).reply).map Response.status = some "" := by
  exact ⟨rfl, rfl⟩

/-- CLAIM C8 as amended: an unknown command produces no reply; a known
command (get/set) with an unrecognized type produces a reply whose status and
message are both empty strings rather than an error; in every case the
connection stays open. -/
theorem protocol_errors_swallowed (req : RequestMessage) (infos : List LiDARInfo) :
    (req.command ≠ "get" → req.command ≠ "set" →
      sessionStep req infos = ⟨none, none, false⟩) ∧
    (req.command = "get" → req.type ≠ "lidar_list" → req.type ≠ "basic_config" →
      sessionStep req infos = ⟨some ⟨req.lidar_info, "", "", none⟩, none, false⟩) ∧
    (req.command = "set" → req.type ≠ "register_lidar" →
      sessionStep req infos = ⟨some ⟨req.lidar_info, "", "", none⟩, none, false⟩) := by
  refine ⟨?_, ?_, ?_⟩
  · intro hg hs
    simp only [sessionStep, wsParse, hg, hs]
    simp [hg, hs]
  · intro hg ht1 ht2
    simp only [sessionStep, wsParse, parse_get, hg, ht1, ht2]
    simp [ht1, ht2]
    cases req.lidar_info <;> simp
  · intro hs ht
    by_cases hg : req.command = "get"
    · rw [hg] at hs; exact absurd hs (by decide)
    · simp only [sessionStep, wsParse, parse_set, hg, hs, ht]
      simp [hg, ht]
      cases req.lidar_info <;> simp

/-- Witness for C8 (amended): concrete unknown-command and unknown-type
requests. -/
theorem protocol_errors_swallowed_witness :
    sessionStep ⟨.null, "hello", "basic_config"⟩ [] = ⟨none, none, false⟩ ∧
    sessionStep ⟨.null, "get", "bogus"⟩ [] =
      ⟨some ⟨InfoJson.null, "", "", none⟩, none, false⟩ := by
  constructor
  · exact (protocol_errors_swallowed ⟨.null, "hello", "basic_config"⟩ []).1
      (by decide) (by decide)
  · exact (protocol_errors_swallowed ⟨.null, "get", "bogus"⟩ []).2.1
      rfl (by decide) (by decide)

/-- CLAIM C9: a `get`/`basic_config` request with a well-formed identity
builds the frame `[0xFA, product_line, lidar_id, 0xCF, 0x10, len_hi, len_lo]
++ payload` with a final byte equal to the exclusive-or of every preceding
byte, sends no synchronous reply (status "none"), and hands the frame to the
session→UDP bridge. -/
theorem basic_config_get_frame (info : LiDARInfo) (infos : List LiDARInfo) :
    wsParse ⟨.valid info, "get", "basic_config"⟩ infos =
      Except.ok (⟨.valid info, "none", "", none⟩, mkBasicConfigGetFrame info) ∧
    (sessionStep ⟨.valid info, "get", "basic_config"⟩ infos).bridge =
      some (mkBasicConfigGetFrame info) ∧
    (sessionStep ⟨.valid info, "get", "basic_config"⟩ infos).reply = none ∧
    mkBasicConfigGetFrame info =
      ([0xFA, info.product_line, info.lidar_id, 0xCF, 0x10, 0, 1] ++ [0xED]) ++
        [(([0xFA, info.product_line, info.lidar_id, 0xCF, 0x10, 0, 1] ++ [0xED])
            : List Nat).foldl (· ^^^ ·) 0] := by
  refine ⟨rfl, rfl, rfl, ?_⟩
  simp [mkBasicConfigGetFrame, checksumXor]

theorem ddDistances_length : ∀ l : List Nat, (ddDistances l).length = l.length / 2
  | [] => by simp [ddDistances]
  | [_] => by simp [ddDistances]
  | a :: b :: t => by
    simp only [ddDistances, List.length_cons, ddDistances_length t]
    omega

/-- CLAIM C6: whenever parse_dd decodes a complete mode-0xDD frame it yields
exactly `h_fov/0.25` points for the selected channel — 400 for product lines
outside 2, 3, 7 (whose FOV list allows any channel 0..3), 480 for lines 2 and
3, 1080 for line 7 — and decoding succeeds whenever the channel is within the
FOV list and the payload supplies enough distance samples. -/
theorem parse_dd_point_count :
    (∀ pl param payload pcd, parseDD pl param payload = some pcd →
      pcd.point_cloud.points.length = hSamples pl) ∧
    (∀ pl param payload, param % 16 < (fovList pl).length →
      hSamples pl ≤ (ddDistances payload).length → payload ≠ [] →
      ∃ pcd, parseDD pl param payload = some pcd) ∧
    (∀ pl, hSamples pl = if pl = 2 ∨ pl = 3 then 480 else if pl = 7 then 1080 else 400) := by
  refine ⟨?_, ?_, fun pl => hSamples_eq pl⟩
  · intro pl param payload pcd h
    simp only [parseDD] at h
    split at h
    · exact absurd h (by simp)
    · split at h
      · exact absurd h (by simp)
      · split at h
        · cases h
          simp
        · exact absurd h (by simp)
  · intro pl param payload hch hlen hne
    have hlast : ∃ lb, payload.getLast? = some lb := by
      cases hg : payload.getLast? with
      | none => exact absurd (List.getLast?_eq_none_iff.mp hg) hne
      | some lb => exact ⟨lb, rfl⟩
    obtain ⟨lb, hlb⟩ := hlast
    have hv : ∃ v, (fovList pl).get? (param % 16) = some v := by
      cases hg : (fovList pl).get? (param % 16) with
      | none =>
        have := List.get?_eq_none.mp hg
        omega
      | some v => exact ⟨v, rfl⟩
    obtain ⟨v, hv⟩ := hv
    simp only [parseDD, hlb, hv]
    rw [if_pos hlen]
    exact ⟨_, rfl⟩

/-- Witness for C6: product line 0, channel 3, 800 payload bytes (400
distance samples). -/
theorem parse_dd_point_count_witness :
    (0x03 % 16 < (fovList 0).length) ∧
    hSamples 0 ≤ (ddDistances (List.replicate 800 1)).length ∧
    List.replicate 800 1 ≠ ([] : List Nat) ∧
    (∃ pcd, parseDD 0 0x03 (List.replicate 800 1) = some pcd) := by
  have hlen4 : (fovList 0).length = 4 := by
    unfold fovList
    norm_num
  have hch : (0x03 : Nat) % 16 < (fovList 0).length := by
    rw [hlen4]
    norm_num
  have hsam : hSamples 0 ≤ (ddDistances (List.replicate 800 1)).length := by
    rw [ddDistances_length, hSamples_eq, List.length_replicate]
    norm_num
  have hne : List.replicate 800 1 ≠ ([] : List Nat) := by
    intro h
    have := congrArg List.length h
    rw [List.length_replicate] at this
    simp at this
  exact ⟨hch, hsam, hne, parse_dd_point_count.2.1 0 0x03 (List.replicate 800 1) hch hsam hne⟩

theorem digitChar_inj : ∀ d1 < 10, ∀ d2 < 10, digitChar d1 = digitChar d2 → d1 = d2 := by
  decide

theorem digitChar_not_special : ∀ d < 10,
    digitChar d ≠ quoteChar ∧ digitChar d ≠ ',' ∧ digitChar d ≠ rbrace := by
  decide

theorem natChars_digits {n : Nat} : ∀ c ∈ natChars n, ∃ d, d < 10 ∧ c = digitChar d := by
  intro c hc
  unfold natChars at hc
  by_cases h0 : n = 0
  · simp only [h0, if_true] at hc
    simp only [List.mem_singleton] at hc
    exact ⟨0, by norm_num, hc⟩
  · simp only [h0, if_false, List.mem_reverse, List.mem_map] at hc
    obtain ⟨d, hd, rfl⟩ := hc
    exact ⟨d, Nat.digits_lt_base (by norm_num) hd, rfl⟩

theorem natChars_not_special (n : Nat) : ∀ c ∈ natChars n, c ≠ ',' ∧ c ≠ rbrace := by
  intro c hc
  obtain ⟨d, hd, rfl⟩ := natChars_digits c hc
  exact ⟨(digitChar_not_special d hd).2.1, (digitChar_not_special d hd).2.2⟩

theorem map_digitChar_cancel : ∀ (l1 l2 : List Nat), (∀ x ∈ l1, x < 10) → (∀ x ∈ l2, x < 10) →
    l1.map digitChar = l2.map digitChar → l1 = l2 := by
  intro l1
  induction l1 with
  | nil =>
    intro l2 _ _ h
    cases l2 with
    | nil => rfl
    | cons y s => simp at h
  | cons x t ih =>
    intro l2 h1 h2 h
    cases l2 with
    | nil => simp at h
    | cons y s =>
      simp only [List.map_cons, List.cons.injEq] at h
      obtain ⟨hxy, hts⟩ := h
      have hx := digitChar_inj x (h1 x (by simp)) y (h2 y (by simp)) hxy
      have ht := ih s (fun z hz => h1 z (by simp [hz])) (fun z hz => h2 z (by simp [hz])) hts
      rw [hx, ht]

theorem natChars_singleton_zero {n : Nat} (h : natChars n = ['0']) : n = 0 := by
  by_contra hn
  unfold natChars at h
  simp only [hn, if_false] at h
  have hlen := congrArg List.length h
  simp only [List.length_reverse, List.length_map, List.length_singleton] at hlen
  cases hdig : Nat.digits 10 n with
  | nil => rw [hdig] at hlen; simp at hlen
  | cons d t =>
    rw [hdig] at hlen h
    simp only [List.length_cons] at hlen
    have ht : t = [] := List.length_eq_zero.mp (by omega)
    subst ht
    simp only [List.map_cons, List.map_nil] at h
    have hd10 : d < 10 := Nat.digits_lt_base (by norm_num) (by rw [hdig]; exact List.mem_singleton_self d)
    have hd0 : d = 0 := by
      apply digitChar_inj d hd10 0 (by norm_num)
      have : digitChar d = '0' := by
        have h' := h
        simp only [List.reverse_cons, List.reverse_nil, List.nil_append,
          List.cons.injEq, and_true] at h'
        exact h'
      simpa [digitChar] using this
    subst hd0
    have : n = Nat.ofDigits 10 [0] := by rw [← Nat.ofDigits_digits 10 n, hdig]
    simp [Nat.ofDigits] at this
    exact hn this

theorem natChars_inj {a b : Nat} (h : natChars a = natChars b) : a = b := by
  by_cases ha : a = 0 <;> by_cases hb : b = 0
  · rw [ha, hb]
  · subst ha
    have : b = 0 := natChars_singleton_zero (h.symm.trans (by unfold natChars; simp))
    omega
  · subst hb
    have : a = 0 := natChars_singleton_zero (h.trans (by unfold natChars; simp))
    omega
  · unfold natChars at h
    simp only [ha, hb, if_false] at h
    have h2 := congrArg List.reverse h
    rw [List.reverse_reverse, List.reverse_reverse] at h2
    have h3 := map_digitChar_cancel _ _
      (fun x hx => Nat.digits_lt_base (by norm_num) hx)
      (fun x hx => Nat.digits_lt_base (by norm_num) hx) h2
    calc a = Nat.ofDigits 10 (Nat.digits 10 a) := (Nat.ofDigits_digits 10 a).symm
      _ = Nat.ofDigits 10 (Nat.digits 10 b) := by rw [h3]
      _ = b := Nat.ofDigits_digits 10 b

theorem splitAtChar {c : Char} : ∀ (xs ys as bs : List Char),
    (∀ x ∈ xs, x ≠ c) → (∀ y ∈ ys, y ≠ c) →
    xs ++ c :: as = ys ++ c :: bs → xs = ys ∧ as = bs := by
  intro xs
  induction xs with
  | nil =>
    intro ys as bs _ hy h
    cases ys with
    | nil => simpa using h
    | cons y t =>
      simp only [List.nil_append, List.cons_append, List.cons.injEq] at h
      exact absurd h.1.symm (hy y (by simp))
  | cons x xt ih =>
    intro ys as bs hx hy h
    cases ys with
    | nil =>
      simp only [List.nil_append, List.cons_append, List.cons.injEq] at h
      exact absurd h.1 (hx x (by simp))
    | cons y t =>
      simp only [List.cons_append, List.cons.injEq] at h
      obtain ⟨hxy, hrest⟩ := h
      obtain ⟨h1, h2⟩ := ih t as bs (fun z hz => hx z (by simp [hz]))
        (fun z hz => hy z (by simp [hz])) hrest
      exact ⟨by rw [hxy, h1], h2⟩

/-- Injectivity of the serde-style rendering compared by broadcast_message,
for identities whose ip strings contain nothing `serde_json` would escape. -/
theorem liDARInfoStr_inj (i1 i2 : LiDARInfo) (h1 : escapeFreeIp i1.ip)
    (h2 : escapeFreeIp i2.ip) (he : liDARInfoStr i1 = liDARInfoStr i2) : i1 = i2 := by
  unfold liDARInfoStr at he
  simp only [List.cons.injEq, true_and] at he
  replace he := List.append_cancel_left he
  obtain ⟨hip, he⟩ := splitAtChar _ _ _ _
    (fun x hx => (h1 x hx).1) (fun x hx => (h2 x hx).1) he
  simp only [List.cons.injEq, true_and] at he
  replace he := List.append_cancel_left he
  obtain ⟨hid, he⟩ := splitAtChar _ _ _ _
    (fun x hx => (natChars_not_special _ x hx).1)
    (fun x hx => (natChars_not_special _ x hx).1) he
  replace he := List.append_cancel_left he
  obtain ⟨hport, he⟩ := splitAtChar _ _ _ _
    (fun x hx => (natChars_not_special _ x hx).1)
    (fun x hx => (natChars_not_special _ x hx).1) he
  replace he := List.append_cancel_left he
  obtain ⟨hpl, _⟩ := splitAtChar _ _ _ _
    (fun x hx => (natChars_not_special _ x hx).2)
    (fun x hx => (natChars_not_special _ x hx).2) he
  cases i1
  cases i2
  simp only [LiDARInfo.mk.injEq]
  exact ⟨hip, natChars_inj hport, natChars_inj hpl, natChars_inj hid⟩

/-- CLAIM C4: broadcast_message forwards a decoded frame exactly to the
connected sessions whose recorded identity equals the frame's identity
(string comparison of the serde renderings coincides with structural
equality); a session with a different identity or no recorded identity never
receives it. -/
theorem broadcast_filters_by_identity (clients : List Nat)
    (client_lidar_map : Nat → Option LiDARInfo) (fid : LiDARInfo)
    (hmap : ∀ sid i, client_lidar_map sid = some i → escapeFreeIp i.ip)
    (hfid : escapeFreeIp fid.ip) :
    ∀ sid, sid ∈ broadcastRecipients clients client_lidar_map (liDARInfoStr fid) ↔
      sid ∈ clients ∧ client_lidar_map sid = some fid := by
  intro sid
  unfold broadcastRecipients
  rw [List.mem_filter]
  constructor
  · rintro ⟨hc, hp⟩
    refine ⟨hc, ?_⟩
    rcases hm : client_lidar_map sid with _ | i
    · rw [hm] at hp; simp at hp
    · rw [hm] at hp
      simp only [decide_eq_true_eq] at hp
      have hif : i = fid := liDARInfoStr_inj i fid (hmap sid i hm) hfid hp
      rw [← hif]
  · rintro ⟨hc, hm⟩
    refine ⟨hc, ?_⟩
    rw [hm]
    simp

/-- Witness for C4: sessions 0 and 1 connected, session 0 subscribed to the
frame's identity, session 1 unsubscribed. -/
theorem broadcast_filters_by_identity_witness :
    (∀ sid i,
      (fun s => if s = 0 then some (⟨"1.2.3.4".toList, 5000, 0, 1⟩ : LiDARInfo) else none) sid
          = some i → escapeFreeIp i.ip) ∧
    escapeFreeIp ((⟨"1.2.3.4".toList, 5000, 0, 1⟩ : LiDARInfo)).ip ∧
    (0 ∈ broadcastRecipients [0, 1]
        (fun s => if s = 0 then some (⟨"1.2.3.4".toList, 5000, 0, 1⟩ : LiDARInfo) else none)
        (liDARInfoStr ⟨"1.2.3.4".toList, 5000, 0, 1⟩) ↔
      0 ∈ [0, 1] ∧
      (fun s => if s = 0 then some (⟨"1.2.3.4".toList, 5000, 0, 1⟩ : LiDARInfo) else none) 0
        = some ⟨"1.2.3.4".toList, 5000, 0, 1⟩) := by
  have hmap : ∀ sid i,
      (fun s => if s = 0 then some (⟨"1.2.3.4".toList, 5000, 0, 1⟩ : LiDARInfo) else none) sid
        = some i → escapeFreeIp i.ip := by
    intro sid i h
    by_cases hs : sid = 0
    · simp only [hs, if_true, Option.some.injEq] at h
      rw [← h]
      decide
    · simp [hs] at h
  have hf : escapeFreeIp ((⟨"1.2.3.4".toList, 5000, 0, 1⟩ : LiDARInfo)).ip := by decide
  exact ⟨hmap, hf, broadcast_filters_by_identity [0, 1] _ _ hmap hf 0⟩

/-- CLAIM C10: decoding never reads the trailing checksum byte — two complete
frames of equal length that agree everywhere except at offset
`7 + data_len` decode identically. -/
theorem parse_ignores_trailing_checksum (ip : List Char) (port : Nat) (d1 d2 : List Nat)
    (hc : d1.length = readLen d1 + 8)
    (hl : d2.length = d1.length)
    (ha : ∀ i, i < d1.length → i ≠ 7 + readLen d1 → d1.getD i 0 = d2.getD i 0) :
    parse ip port d1 = parse ip port d2 := by
  have h8 : 8 ≤ d1.length := by rw [hc]; omega
  have key : ∀ (l : List Nat) (i : Nat), i < l.length → l[i]? = some (l.getD i 0) := by
    intro l i hi
    cases hg : l[i]? with
    | none =>
      have := List.getElem?_eq_none_iff.mp hg
      omega
    | some a =>
      rw [List.getD_eq_getElem?_getD, hg]
      rfl
  have hgd : ∀ k, k < 7 → d1.getD k 0 = d2.getD k 0 := by
    intro k hk
    exact ha k (by omega) (by omega)
  have hrl : readLen d2 = readLen d1 := by
    unfold readLen
    rw [← hgd 5 (by omega), ← hgd 6 (by omega)]
  have hpay : (d2.drop 7).take (readLen d1) = (d1.drop 7).take (readLen d1) := by
    apply List.ext_getElem?
    intro i
    rw [List.getElem?_take, List.getElem?_take]
    by_cases hi : i < readLen d1
    · rw [if_pos hi, if_pos hi, List.getElem?_drop, List.getElem?_drop]
      rw [key d1 (7 + i) (by omega), key d2 (7 + i) (by omega)]
      exact congrArg some (ha (7 + i) (by omega) (by omega)).symm
    · rw [if_neg hi, if_neg hi]
  simp only [parse, hl, hrl, hpay]
  rw [hgd 0 (by omega), hgd 1 (by omega), hgd 2 (by omega), hgd 3 (by omega),
    hgd 4 (by omega)]

/-- Witness for C10: two MotorSpeed frames differing only in the trailing
checksum byte decode identically. -/
theorem parse_ignores_trailing_checksum_witness :
    ([0xFA, 0, 1, 0xCF, 0x63, 0, 1, 5, 0x00] : List Nat).length =
      readLen [0xFA, 0, 1, 0xCF, 0x63, 0, 1, 5, 0x00] + 8 ∧
    ([0xFA, 0, 1, 0xCF, 0x63, 0, 1, 5, 0xFF] : List Nat).length =
      ([0xFA, 0, 1, 0xCF, 0x63, 0, 1, 5, 0x00] : List Nat).length ∧
    (∀ i, i < ([0xFA, 0, 1, 0xCF, 0x63, 0, 1, 5, 0x00] : List Nat).length →
      i ≠ 7 + readLen [0xFA, 0, 1, 0xCF, 0x63, 0, 1, 5, 0x00] →
      ([0xFA, 0, 1, 0xCF, 0x63, 0, 1, 5, 0x00] : List Nat).getD i 0 =
        ([0xFA, 0, 1, 0xCF, 0x63, 0, 1, 5, 0xFF] : List Nat).getD i 0) ∧
    parse [] 0 [0xFA, 0, 1, 0xCF, 0x63, 0, 1, 5, 0x00] =
      parse [] 0 [0xFA, 0, 1, 0xCF, 0x63, 0, 1, 5, 0xFF] := by
  refine ⟨by decide, by decide, by decide, ?_⟩
  exact parse_ignores_trailing_checksum [] 0 _ _ (by decide) (by decide) (by decide)
